import Mathlib

/-!
# Verification of the wardrobe-assistant recommendation engine

A shallow embedding of `backend/app/services/recommendation_engine.py`:
the outfit composer (`generate_recommendations` and its helpers) and the
wardrobe usage analyzer (`analyze_wardrobe_usage`).

Modelling conventions:
* Python floats are modelled as exact rationals (`ℚ`).
* Python's unseeded `random` calls are modelled by an explicit `Choice`
  record supplied per draw (one record per loop iteration), so every
  theorem quantifies over all possible random outcomes.
* Python `dict`s built by repeated `d[k] = d.get(k, 0) + 1` are modelled
  as insertion-ordered association lists.
* `str.lower` is modelled by ASCII lowercasing (all table entries are
  ASCII).
* Python's stable `list.sort(key=..., reverse=True)` is modelled by
  `List.mergeSort` with the reversed comparison, which is stable in the
  same sense.
-/

/-- ASCII lowercasing, modelling Python `str.lower()` on the ASCII strings
used throughout the engine. -/
def strLower (s : String) : String := String.mk (s.data.map Char.toLower)

/-- One clothing item, mirroring the `ClothingItem` dataclass.
`last_worn` is an abstract optional timestamp (never consumed). -/
structure ClothingItem where
  id : String
  name : String
  type : String
  color : String
  tags : List String
  usage_count : Nat
  last_worn : Option Nat
  is_formal : Bool
  is_seasonal : Bool
deriving DecidableEq, Repr, Inhabited

/-- One outfit recommendation, mirroring the `OutfitRecommendation`
dataclass. -/
structure OutfitRecommendation where
  items : List String
  confidence : ℚ
  reasoning : String
  weather_appropriate : Bool
  event_match : Bool
  style_score : ℚ
deriving DecidableEq, Repr, Inhabited

/-- The optional `weather` dict: keys `temperature`, `temp`, `condition`
may each be absent. -/
structure Weather where
  temperature : Option ℚ
  temp : Option ℚ
  condition : Option String
deriving DecidableEq, Repr, Inhabited

/-- The optional `user_preferences` dict with its two consumed keys
(absent keys default to the empty list, as `preferences.get(_, [])`). -/
structure Preferences where
  favorite_colors : List String
  preferred_styles : List String
deriving DecidableEq, Repr, Inhabited

/-- The random outcomes consumed by one call of
`_create_outfit_combination`: `dressRoll` models `random.random() > 0.7`,
`accRoll` models `random.random() > 0.6`, and each index models a
`random.choice` from the corresponding bucket (taken modulo the bucket
size). -/
structure Choice where
  dressRoll : Bool
  dressIdx : Nat
  topIdx : Nat
  bottomIdx : Nat
  shoeIdx : Nat
  outerIdx : Nat
  accRoll : Bool
  accIdx : Nat
deriving DecidableEq, Repr, Inhabited

/-- `random.choice(l)` for a nonempty `l`, with the random draw supplied
as an index (reduced modulo the length; the default is never reached on
the nonempty buckets the engine guards). -/
def pickItem (l : List ClothingItem) (i : Nat) : ClothingItem :=
  l.getD (i % l.length) default

/-- `self.color_harmony['neutral']`. -/
def neutral_colors : List String :=
  ["black", "white", "grey", "gray", "beige", "cream", "navy"]

/-- `self.color_harmony['warm']`. -/
def warm_colors : List String :=
  ["red", "orange", "yellow", "pink", "burgundy", "brown"]

/-- `self.color_harmony['cool']`. -/
def cool_colors : List String :=
  ["blue", "green", "purple", "turquoise", "teal"]

/-- `self.color_harmony['earth']`. -/
def earth_colors : List String :=
  ["brown", "tan", "khaki", "olive", "beige"]

/-- The `self.color_harmony` dict, in insertion order. -/
def color_harmony : List (String × List String) :=
  [("neutral", neutral_colors), ("warm", warm_colors),
   ("cool", cool_colors), ("earth", earth_colors)]

/-- The `self.weather_mapping` dict. -/
def weather_mapping : List (String × List String) :=
  [("hot", ["shorts", "tank_top", "t-shirt", "dress", "sandals", "light_fabric"]),
   ("warm", ["jeans", "t-shirt", "shirt", "sneakers", "dress"]),
   ("cool", ["jeans", "sweater", "jacket", "boots", "long_sleeve"]),
   ("cold", ["coat", "sweater", "boots", "scarf", "thick_fabric", "layering"])]

/-- The `self.event_styles` dict. -/
def event_styles : List (String × List String) :=
  [("work", ["formal", "business_casual", "professional"]),
   ("casual", ["casual", "comfortable", "everyday"]),
   ("formal", ["formal", "dress_up", "elegant", "sophisticated"]),
   ("party", ["trendy", "stylish", "fun", "colorful"]),
   ("outdoor", ["casual", "comfortable", "practical", "layering"]),
   ("date", ["stylish", "attractive", "confident", "nice"]),
   ("workout", ["activewear", "comfortable", "breathable"])]

/-- `table.get(key, [])` on one of the string-keyed dicts above. -/
def lookupTable (tbl : List (String × List String)) (k : String) : List String :=
  match tbl.find? (fun p => p.1 == k) with
  | some p => p.2
  | none => []

/-- `_calculate_color_harmony`: same lowered color 0.9; both colors in one
harmony group 0.8; either neutral 0.7; else 0.5. -/
def calculate_color_harmony (color1 color2 : String) : ℚ :=
  let color1_lower := strLower color1
  let color2_lower := strLower color2
  if color1_lower = color2_lower then 0.9
  else if color_harmony.any (fun g => g.2.contains color1_lower && g.2.contains color2_lower) then 0.8
  else if neutral_colors.contains color1_lower || neutral_colors.contains color2_lower then 0.7
  else 0.5

/-- `weather.get('temperature', weather.get('temp', 20))`. -/
def weatherTemp (w : Weather) : ℚ :=
  w.temperature.getD (w.temp.getD 20)

/-- `_needs_outerwear` on a present weather dict:
`temp < 15 or condition in ['rainy', 'snowy', 'windy']`. -/
def needs_outerwear (w : Weather) : Bool :=
  decide (weatherTemp w < 15) || ["rainy", "snowy", "windy"].contains (w.condition.getD "")

/-- `_is_weather_appropriate`: band the temperature, look the band up in
`weather_mapping`, and test intersection with the outfit items' types and
tags (items re-fetched by id; unknown ids contribute nothing). -/
def is_weather_appropriate (outfit_items : List String) (all_items : List ClothingItem)
    (weather : Option Weather) : Bool :=
  match weather with
  | none => true
  | some w =>
    let temp := weatherTemp w
    let weather_cat :=
      if temp > 25 then "hot"
      else if temp > 15 then "warm"
      else if temp > 5 then "cool"
      else "cold"
    let appropriate_types := lookupTable weather_mapping weather_cat
    let outfit_types := outfit_items.flatMap (fun item_id =>
      match all_items.find? (fun it => it.id == item_id) with
      | some it => it.type :: it.tags
      | none => [])
    appropriate_types.any (fun t => outfit_types.contains t)

/-- The loop of `_matches_event`: walk the outfit ids accumulating tags,
returning early when a formal item meets a work/formal event, and finally
testing the accumulated tags against the event styles. -/
def matches_event_go (all_items : List ClothingItem) (event_lower : String)
    (appropriate_styles : List String) : List String → List String → Bool
  | [], outfit_tags => appropriate_styles.any (fun s => outfit_tags.contains s)
  | item_id :: rest, outfit_tags =>
    match all_items.find? (fun it => it.id == item_id) with
    | none => matches_event_go all_items event_lower appropriate_styles rest outfit_tags
    | some it =>
      if it.is_formal && (event_lower == "work" || event_lower == "formal") then true
      else matches_event_go all_items event_lower appropriate_styles rest (outfit_tags ++ it.tags)

/-- `_matches_event`: absent (or empty, hence falsy) event is vacuously
true, as is an event missing from `event_styles`. -/
def matches_event (outfit_items : List String) (all_items : List ClothingItem)
    (event : Option String) : Bool :=
  match event with
  | none => true
  | some e =>
    if e = "" then true
    else
      let appropriate_styles := lookupTable event_styles (strLower e)
      if appropriate_styles.isEmpty then true
      else matches_event_go all_items (strLower e) appropriate_styles outfit_items []

/-- `_calculate_style_score`: 0.5 base, +0.2 for a favorite-color hit,
+0.2 for a preferred-style hit, capped at 1. -/
def calculate_style_score (outfit_items : List String) (all_items : List ClothingItem)
    (preferences : Option Preferences) : ℚ :=
  match preferences with
  | none => 0.5
  | some p =>
    let score : ℚ := 0.5
    let outfit_colors := outfit_items.filterMap (fun item_id =>
      (all_items.find? (fun it => it.id == item_id)).map (fun it => strLower it.color))
    let color_matches :=
      (outfit_colors.filter (fun col => (p.favorite_colors.map strLower).contains col)).length
    let score :=
      if !p.favorite_colors.isEmpty then
        (if color_matches > 0 then score + 0.2 else score)
      else score
    let outfit_tags := outfit_items.flatMap (fun item_id =>
      match all_items.find? (fun it => it.id == item_id) with
      | some it => it.tags.map strLower
      | none => [])
    let style_matches :=
      (p.preferred_styles.filter (fun sty => outfit_tags.contains (strLower sty))).length
    let score :=
      if !p.preferred_styles.isEmpty then
        (if style_matches > 0 then score + 0.2 else score)
      else score
    min 1 score

/-- Types that land in the `tops` bucket. -/
def top_types : List String := ["shirt", "t-shirt", "blouse", "sweater", "tank_top"]

/-- Types that land in the `bottoms` bucket. -/
def bottom_types : List String := ["pants", "jeans", "shorts", "skirt"]

/-- Types that land in the `outerwear` bucket. -/
def outerwear_types : List String := ["jacket", "coat", "blazer", "cardigan"]

/-- Types that land in the `accessories` bucket. -/
def accessory_types : List String := ["accessories", "scarf", "bag", "belt"]

/-- The `tops` bucket of `_create_outfit_combination`. -/
def topsOf (items : List ClothingItem) : List ClothingItem :=
  items.filter (fun it => top_types.contains it.type)

/-- The `bottoms` bucket. -/
def bottomsOf (items : List ClothingItem) : List ClothingItem :=
  items.filter (fun it => bottom_types.contains it.type)

/-- The `shoes` bucket. -/
def shoesOf (items : List ClothingItem) : List ClothingItem :=
  items.filter (fun it => it.type == "shoes")

/-- The `outerwear` bucket. -/
def outerwearOf (items : List ClothingItem) : List ClothingItem :=
  items.filter (fun it => outerwear_types.contains it.type)

/-- The `dresses` bucket. -/
def dressesOf (items : List ClothingItem) : List ClothingItem :=
  items.filter (fun it => it.type == "dress")

/-- The `accessories` bucket. -/
def accessoriesOf (items : List ClothingItem) : List ClothingItem :=
  items.filter (fun it => accessory_types.contains it.type)

/-- `_create_outfit_combination`: one candidate outfit for one draw of
random outcomes `c`, or `none` when the dress branch is not taken and the
tops or bottoms bucket is empty. -/
def create_outfit_combination (items : List ClothingItem) (event : Option String)
    (weather : Option Weather) (preferences : Option Preferences)
    (c : Choice) : Option OutfitRecommendation :=
  let tops := topsOf items
  let bottoms := bottomsOf items
  let shoes := shoesOf items
  let outerwear := outerwearOf items
  let dresses := dressesOf items
  let accessories := accessoriesOf items
  let base : Option (List String × List String × List ℚ) :=
    if !dresses.isEmpty && c.dressRoll then
      let dress := pickItem dresses c.dressIdx
      some ([dress.id], ["Selected " ++ dress.name ++ " as the main piece"], [0.8])
    else if tops.isEmpty || bottoms.isEmpty then none
    else
      let top := pickItem tops c.topIdx
      let bottom := pickItem bottoms c.bottomIdx
      let color_score := calculate_color_harmony top.color bottom.color
      some ([top.id, bottom.id],
        ["Paired " ++ top.name ++ " with " ++ bottom.name], [color_score])
  base.bind (fun b =>
    let outfit1 := b.1
    let parts1 := b.2.1
    let factors1 := b.2.2
    let outfit2 := if !shoes.isEmpty then outfit1 ++ [(pickItem shoes c.shoeIdx).id] else outfit1
    let factors2 := if !shoes.isEmpty then factors1 ++ [0.7] else factors1
    let wantsOuter := (match weather with
      | some w => needs_outerwear w
      | none => false) && !outerwear.isEmpty
    let outfit3 := if wantsOuter then outfit2 ++ [(pickItem outerwear c.outerIdx).id] else outfit2
    let parts3 := if wantsOuter then
        parts1 ++ ["Added " ++ (pickItem outerwear c.outerIdx).name ++ " for weather"]
      else parts1
    let factors3 := if wantsOuter then factors2 ++ [0.8] else factors2
    let wantsAcc := !accessories.isEmpty && c.accRoll
    let outfit4 := if wantsAcc then outfit3 ++ [(pickItem accessories c.accIdx).id] else outfit3
    let factors4 := if wantsAcc then factors3 ++ [0.6] else factors3
    let weather_appropriate := is_weather_appropriate outfit4 items weather
    let event_match := matches_event outfit4 items event
    let style_score := calculate_style_score outfit4 items preferences
    let base_confidence : ℚ :=
      if !factors4.isEmpty then factors4.sum / (factors4.length : ℚ) else 0.5
    let weather_bonus : ℚ := if weather_appropriate then 0.2 else -0.3
    let event_bonus : ℚ := if event_match then 0.2 else -0.1
    let style_bonus : ℚ := style_score * 0.1
    let confidence := min 1 (max 0 (base_confidence + weather_bonus + event_bonus + style_bonus))
    let reasoning0 := String.intercalate "; " parts3
    let reasoning1 := match weather with
      | some w => reasoning0 ++ " (for " ++ (w.condition.getD "current") ++ " weather)"
      | none => reasoning0
    let reasoning := match event with
      | some e => if e = "" then reasoning1 else reasoning1 ++ " (suitable for " ++ e ++ ")"
      | none => reasoning1
    some { items := outfit4, confidence := confidence, reasoning := reasoning,
           weather_appropriate := weather_appropriate, event_match := event_match,
           style_score := style_score })

/-- The comparison `list.sort(key=lambda x: x.confidence, reverse=True)`
performs: `a` may come before `b` iff `b.confidence ≤ a.confidence`. -/
def recLe (a b : OutfitRecommendation) : Bool :=
  decide (b.confidence ≤ a.confidence)

/-- `generate_recommendations`: draw `count * 3` candidates (the random
outcomes of draw `i` are `choices i`), drop the failed draws, stable-sort
by confidence descending, and keep the first `count`. -/
def generate_recommendations (wardrobe_items : List ClothingItem) (event : Option String)
    (weather : Option Weather) (user_preferences : Option Preferences)
    (count : Nat) (choices : Nat → Choice) : List OutfitRecommendation :=
  let recommendations := (List.range (count * 3)).filterMap (fun i =>
    create_outfit_combination wardrobe_items event weather user_preferences (choices i))
  (recommendations.mergeSort recLe).take count

/-- One entry of the `rarely_worn` / `most_worn` report lists:
`{'id': ..., 'name': ..., 'usage_count': ...}`. -/
structure ItemSummary where
  id : String
  name : String
  usage_count : Nat
deriving DecidableEq, Repr, Inhabited

/-- The dict comprehension `{'id': item.id, 'name': item.name,
'usage_count': item.usage_count}`. -/
def summarize (it : ClothingItem) : ItemSummary :=
  { id := it.id, name := it.name, usage_count := it.usage_count }

/-- The report returned by `analyze_wardrobe_usage`; the two
distributions are insertion-ordered dicts. -/
structure WardrobeUsageReport where
  total_items : Nat
  average_usage : ℚ
  rarely_worn : List ItemSummary
  most_worn : List ItemSummary
  color_distribution : List (String × Nat)
  type_distribution : List (String × Nat)
  suggestions : List String
deriving DecidableEq, Repr, Inhabited

/-- `d[k] = d.get(k, 0) + 1` on an insertion-ordered dict. -/
def dictIncr (d : List (String × Nat)) (k : String) : List (String × Nat) :=
  match d with
  | [] => [(k, 1)]
  | p :: rest => if p.1 == k then (p.1, p.2 + 1) :: rest else p :: dictIncr rest k

/-- `d.get(k, 0)` on an insertion-ordered dict. -/
def dictGet (d : List (String × Nat)) (k : String) : Nat :=
  match d.find? (fun p => p.1 == k) with
  | some p => p.2
  | none => 0

/-- Python `round(q, 1)` on an exact rational: round-half-to-even at one
decimal digit. -/
def pythonRound1 (q : ℚ) : ℚ :=
  let t := q * 10
  let f : ℤ := ⌊t⌋
  let r := t - (f : ℚ)
  let n : ℤ :=
    if r < 1 / 2 then f
    else if 1 / 2 < r then f + 1
    else if f % 2 = 0 then f else f + 1
  (n : ℚ) / 10

/-- The comparison `sorted(items, key=lambda x: x.usage_count,
reverse=True)` performs. -/
def usageLe (a b : ClothingItem) : Bool :=
  decide (b.usage_count ≤ a.usage_count)

/-- `analyze_wardrobe_usage`. -/
def analyze_wardrobe_usage (items : List ClothingItem) : WardrobeUsageReport :=
  if items.isEmpty then
    { total_items := 0, average_usage := 0, rarely_worn := [], most_worn := [],
      color_distribution := [], type_distribution := [], suggestions := [] }
  else
    let total_items := items.length
    let total_usage : ℕ := (items.map (fun it => it.usage_count)).sum
    let average_usage : ℚ :=
      if total_items > 0 then (total_usage : ℚ) / (total_items : ℚ) else 0
    let rarely_worn := items.filter (fun it => (it.usage_count : ℚ) < average_usage * 0.5)
    let most_worn := (items.mergeSort usageLe).take 5
    let color_distribution := items.foldl (fun d it => dictIncr d (strLower it.color)) []
    let type_distribution := items.foldl (fun d it => dictIncr d it.type) []
    let suggestions :=
      (if (rarely_worn.length : ℚ) > (total_items : ℚ) * 0.3 then
        ["Consider donating or repurposing items you rarely wear"] else []) ++
      (if (dictGet color_distribution "black" : ℚ) > (total_items : ℚ) * 0.4 then
        ["Try adding more colorful items to diversify your wardrobe"] else []) ++
      (if dictGet type_distribution "jeans" > 5 then
        ["You have many jeans - consider other bottom types for variety"] else [])
    { total_items := total_items,
      average_usage := pythonRound1 average_usage,
      rarely_worn := (rarely_worn.take 10).map summarize,
      most_worn := most_worn.map summarize,
      color_distribution := color_distribution,
      type_distribution := type_distribution,
      suggestions := suggestions }

/-- Insert `a` into a sorted list, before the first element it may
precede: the insertion step of a stable insertion sort. -/
def insertSorted (le : α → α → Bool) (a : α) : List α → List α
  | [] => [a]
  | b :: l => if le a b then a :: b :: l else b :: insertSorted le a l

/-- Stable insertion sort: the reference description of Python's stable
`sort` — an element goes after every earlier element it does not strictly
beat. -/
def insertionSortBy (le : α → α → Bool) : List α → List α
  | [] => []
  | a :: l => insertSorted le a (insertionSortBy le l)

theorem insertSorted_append_of_skip (le : α → α → Bool) (a : α) (l₁ l₂ : List α)
    (h1 : ∀ b ∈ l₁, le a b = false)
    (h2 : ∀ c, l₂.head? = some c → le a c = true) :
    insertSorted le a (l₁ ++ l₂) = l₁ ++ a :: l₂ := by
  induction l₁ with
  | nil =>
    cases l₂ with
    | nil => rfl
    | cons c cs => simp [insertSorted, h2 c rfl]
  | cons b bs ih =>
    have hb : le a b = false := h1 b (by simp)
    simp only [List.cons_append, insertSorted, hb, Bool.false_eq_true, if_false,
      List.cons.injEq, true_and]
    exact ih (fun x hx => h1 x (by simp [hx]))

theorem mergeSort_cons_eq_insertSorted (le : α → α → Bool)
    (htrans : ∀ a b c : α, le a b = true → le b c = true → le a c = true)
    (htotal : ∀ a b : α, (le a b || le b a) = true) (a : α) (l : List α) :
    (a :: l).mergeSort le = insertSorted le a (l.mergeSort le) := by
  obtain ⟨l₁, l₂, h1, h2, h3⟩ := List.mergeSort_cons htrans htotal a l
  rw [h1, h2]
  symm
  apply insertSorted_append_of_skip
  · intro b hb
    have := h3 b hb
    simpa using this
  · intro c hc
    have hs := List.sorted_mergeSort htrans htotal (a :: l)
    rw [h1] at hs
    have hpair : List.Pairwise (fun x y => le x y = true) (a :: l₂) :=
      (List.pairwise_append.mp hs).2.1
    cases l₂ with
    | nil => simp at hc
    | cons d ds =>
      simp only [List.head?_cons, Option.some.injEq] at hc
      subst hc
      exact (List.pairwise_cons.mp hpair).1 d (List.mem_cons_self d ds)

theorem mergeSort_eq_insertionSortBy (le : α → α → Bool)
    (htrans : ∀ a b c : α, le a b = true → le b c = true → le a c = true)
    (htotal : ∀ a b : α, (le a b || le b a) = true) :
    ∀ l : List α, l.mergeSort le = insertionSortBy le l
  | [] => by simp [insertionSortBy]
  | a :: l => by
    rw [mergeSort_cons_eq_insertSorted le htrans htotal,
      mergeSort_eq_insertionSortBy le htrans htotal l]
    rfl

theorem recLe_trans (a b c : OutfitRecommendation) :
    recLe a b = true → recLe b c = true → recLe a c = true := by
  simp only [recLe, decide_eq_true_eq]
  exact fun h1 h2 => le_trans h2 h1

theorem recLe_total (a b : OutfitRecommendation) : (recLe a b || recLe b a) = true := by
  simp only [recLe, Bool.or_eq_true, decide_eq_true_eq]
  exact le_total b.confidence a.confidence

theorem usageLe_trans (a b c : ClothingItem) :
    usageLe a b = true → usageLe b c = true → usageLe a c = true := by
  simp only [usageLe, decide_eq_true_eq]
  exact fun h1 h2 => le_trans h2 h1

theorem usageLe_total (a b : ClothingItem) : (usageLe a b || usageLe b a) = true := by
  simp only [usageLe, Bool.or_eq_true, decide_eq_true_eq]
  exact Nat.le_total b.usage_count a.usage_count

/-- The spec's temperature banding: hot above 25, warm in (15, 25],
cool in (5, 15], cold at or below 5. -/
def weatherBand (temp : ℚ) : String :=
  if temp > 25 then "hot"
  else if temp > 15 then "warm"
  else if temp > 5 then "cool"
  else "cold"

/-- The union (with multiplicity) of the types and tags of the outfit
ids as resolved against the wardrobe. -/
def outfitTypesAndTags (outfit_items : List String) (all_items : List ClothingItem) :
    List String :=
  outfit_items.flatMap (fun item_id =>
    match all_items.find? (fun it => it.id == item_id) with
    | some it => it.type :: it.tags
    | none => [])

/-- The spec's description of weather-appropriateness: band the
temperature, and intersect the outfit's types-and-tags with that band's
keyword set; vacuously true without weather. -/
def specWeatherAppropriate (outfit_items : List String) (all_items : List ClothingItem)
    (weather : Option Weather) : Bool :=
  match weather with
  | none => true
  | some w =>
    (lookupTable weather_mapping (weatherBand (weatherTemp w))).any
      (fun t => (outfitTypesAndTags outfit_items all_items).contains t)

/-- The outfit ids resolved against the wardrobe (first match by id;
unresolved ids dropped). -/
def foundItems (outfit_items : List String) (all_items : List ClothingItem) :
    List ClothingItem :=
  outfit_items.filterMap (fun item_id => all_items.find? (fun it => it.id == item_id))

/-- The spec's description of event-match: vacuously true for an absent,
empty or unknown event; otherwise true iff some outfit item is formal and
the event is work/formal, or some outfit item carries one of the event's
style tags. -/
def specMatchesEvent (outfit_items : List String) (all_items : List ClothingItem)
    (event : Option String) : Bool :=
  match event with
  | none => true
  | some e =>
    if e = "" then true
    else
      let styles := lookupTable event_styles (strLower e)
      if styles.isEmpty then true
      else
        (foundItems outfit_items all_items).any
          (fun it => it.is_formal && (strLower e == "work" || strLower e == "formal"))
        || (foundItems outfit_items all_items).any
          (fun it => it.tags.any (fun t => styles.contains t))

theorem any_contains_flatMap (styles : List String) (found : List ClothingItem) :
    styles.any (fun s => (found.flatMap (fun it => it.tags)).contains s)
      = found.any (fun it => it.tags.any (fun t => styles.contains t)) := by
  rw [Bool.eq_iff_iff]
  simp only [List.any_eq_true, List.mem_flatMap, List.contains_iff_exists_mem_beq,
    beq_iff_eq]
  aesop

theorem matches_event_go_eq (all_items : List ClothingItem) (e : String)
    (styles : List String) :
    ∀ (outfit : List String) (acc : List String),
      matches_event_go all_items e styles outfit acc
        = ((foundItems outfit all_items).any
            (fun it => it.is_formal && (e == "work" || e == "formal"))
          || styles.any (fun s =>
            (acc ++ (foundItems outfit all_items).flatMap (fun it => it.tags)).contains s))
  | [], acc => by simp [matches_event_go, foundItems]
  | item_id :: rest, acc => by
    cases hfind : all_items.find? (fun it => it.id == item_id) with
    | none =>
      have ih := matches_event_go_eq all_items e styles rest acc
      simp only [matches_event_go, foundItems, List.filterMap_cons, hfind] at ih ⊢
      exact ih
    | some it =>
      by_cases hf : (it.is_formal && (e == "work" || e == "formal")) = true
      · simp [matches_event_go, foundItems, List.filterMap_cons, hfind, hf]
      · have ih := matches_event_go_eq all_items e styles rest (acc ++ it.tags)
        simp only [matches_event_go, foundItems, List.filterMap_cons, hfind, hf,
          Bool.false_eq_true, if_false, List.flatMap_cons, List.any_cons,
          Bool.false_or, List.append_assoc] at ih ⊢
        rw [ih]

theorem dictIncr_values_sum (d : List (String × Nat)) (k : String) :
    ((dictIncr d k).map (fun p => p.2)).sum = (d.map (fun p => p.2)).sum + 1 := by
  induction d with
  | nil => simp [dictIncr]
  | cons p rest ih =>
    by_cases h : p.1 == k
    · simp only [dictIncr, h, if_true, List.map_cons, List.sum_cons]
      omega
    · simp only [dictIncr, h, Bool.false_eq_true, if_false, List.map_cons, List.sum_cons, ih]
      omega

theorem foldl_dictIncr_sum (key : ClothingItem → String) :
    ∀ (items : List ClothingItem) (d : List (String × Nat)),
      (((items.foldl (fun d it => dictIncr d (key it)) d)).map (fun p => p.2)).sum
        = (d.map (fun p => p.2)).sum + items.length
  | [], d => by simp
  | it :: rest, d => by
    simp only [List.foldl_cons, List.length_cons]
    rw [foldl_dictIncr_sum key rest (dictIncr d (key it)), dictIncr_values_sum]
    omega

theorem dictGet_cons (p : String × Nat) (rest : List (String × Nat)) (k' : String) :
    dictGet (p :: rest) k' = if p.1 = k' then p.2 else dictGet rest k' := by
  by_cases h : p.1 = k' <;> simp [dictGet, List.find?_cons, h]

theorem dictGet_dictIncr (d : List (String × Nat)) (k k' : String) :
    dictGet (dictIncr d k) k' = dictGet d k' + (if k = k' then 1 else 0) := by
  induction d with
  | nil =>
    by_cases h : k = k' <;> simp [dictIncr, dictGet, dictGet_cons, h]
  | cons p rest ih =>
    by_cases hp : p.1 = k
    · have hd : dictIncr (p :: rest) k = (p.1, p.2 + 1) :: rest := by
        simp [dictIncr, hp]
      rw [hd, dictGet_cons, dictGet_cons]
      by_cases hp' : p.1 = k'
      · have hkk : k = k' := by rw [← hp]; exact hp'
        simp [hp', hkk]
      · have hkk : ¬ k = k' := by rw [← hp]; exact hp'
        simp [hp', hkk]
    · have hd : dictIncr (p :: rest) k = p :: dictIncr rest k := by
        simp [dictIncr, hp]
      rw [hd, dictGet_cons, dictGet_cons]
      by_cases hp' : p.1 = k'
      · have hkk : ¬ k = k' := fun h => hp (hp'.trans h.symm)
        simp [hp', hkk]
      · simp [hp', ih]

theorem foldl_dictIncr_get (key : ClothingItem → String) :
    ∀ (items : List ClothingItem) (d : List (String × Nat)) (k : String),
      dictGet (items.foldl (fun d it => dictIncr d (key it)) d) k
        = dictGet d k + (items.filter (fun it => key it == k)).length
  | [], d, k => by simp
  | it :: rest, d, k => by
    simp only [List.foldl_cons, List.filter_cons]
    rw [foldl_dictIncr_get key rest _ k, dictGet_dictIncr]
    by_cases h : key it = k
    · simp only [h, beq_self_eq_true, if_true, List.length_cons]
      omega
    · simp [h]

theorem pythonRound1_of_mul_ten_int (q : ℚ) (k : ℤ) (hk : q * 10 = (k : ℚ)) :
    pythonRound1 q = q := by
  simp only [pythonRound1, hk, Int.floor_intCast, sub_self]
  norm_num
  linarith [hk]

theorem calculate_style_score_bounds (outfit_items : List String)
    (all_items : List ClothingItem) (preferences : Option Preferences) :
    0 ≤ calculate_style_score outfit_items all_items preferences
    ∧ calculate_style_score outfit_items all_items preferences ≤ 1 := by
  unfold calculate_style_score
  cases preferences with
  | none => norm_num
  | some p =>
    refine ⟨le_min (by norm_num) ?_, min_le_left 1 _⟩
    repeat' split
    all_goals norm_num

theorem create_some_bounds (items : List ClothingItem) (event : Option String)
    (weather : Option Weather) (preferences : Option Preferences) (c : Choice)
    (r : OutfitRecommendation)
    (h : create_outfit_combination items event weather preferences c = some r) :
    0 ≤ r.confidence ∧ r.confidence ≤ 1 ∧ 0 ≤ r.style_score ∧ r.style_score ≤ 1 := by
  unfold create_outfit_combination at h
  dsimp only at h
  obtain ⟨b, hb, hf⟩ := Option.bind_eq_some.mp h
  rw [Option.some.injEq] at hf
  subst hf
  exact ⟨le_min (by norm_num) (le_max_left 0 _), min_le_left 1 _,
    (calculate_style_score_bounds _ _ _).1, (calculate_style_score_bounds _ _ _).2⟩

/-- `sum(item.usage_count for item in items)`. -/
def sumUsage (items : List ClothingItem) : Nat :=
  (items.map (fun it => it.usage_count)).sum

/-- A tagless, never-worn item, for concrete witnesses. -/
def mkItem (id name ty color : String) (usage : Nat) : ClothingItem :=
  { id := id, name := name, type := ty, color := color, tags := [],
    usage_count := usage, last_worn := none, is_formal := false, is_seasonal := false }

/-- Three items with usage counts 1, 0, 0: their exact average usage 1/3
is not representable at one decimal. -/
def usageDemoItems : List ClothingItem :=
  [mkItem "a" "Tee" "t-shirt" "red" 1,
   mkItem "b" "Pants" "pants" "blue" 0,
   mkItem "c" "Boots" "shoes" "green" 0]

/-- A single-item wardrobe whose exact average usage is an integer. -/
def exactDemoItems : List ClothingItem :=
  [mkItem "a" "Tee" "t-shirt" "red" 2]

/-- A wardrobe holding only shoes: no dresses, no tops, no bottoms. -/
def shoesOnlyItems : List ClothingItem :=
  [mkItem "s1" "Sneakers" "shoes" "black" 3]

/-- A wardrobe holding a single dress. -/
def dressOnlyItems : List ClothingItem :=
  [mkItem "d1" "Red Dress" "dress" "red" 0]

/-- Random outcomes that take the dress branch. -/
def choiceOn : Choice :=
  { dressRoll := true, dressIdx := 0, topIdx := 0, bottomIdx := 0,
    shoeIdx := 0, outerIdx := 0, accRoll := false, accIdx := 0 }

/-- Random outcomes that decline the dress branch. -/
def choiceOff : Choice := { choiceOn with dressRoll := false }

/-- A choice stream whose first draw takes the dress branch and whose
later draws decline it. -/
def demoChoices : Nat → Choice := fun i => if i = 0 then choiceOn else choiceOff

/-- The one recommendation the dress-only wardrobe produces under
`demoChoices`. -/
def demoRec : OutfitRecommendation :=
  (create_outfit_combination dressOnlyItems none none none choiceOn).getD default

/-- C1: for every wardrobe, context and count ≥ 1, the result of
`generate_recommendations` has length at most `count` and is sorted by
confidence in descending order. -/
theorem generate_length_sorted (wardrobe_items : List ClothingItem)
    (event : Option String) (weather : Option Weather)
    (user_preferences : Option Preferences) (count : Nat) (choices : Nat → Choice)
    (_hcount : 1 ≤ count) :
    (generate_recommendations wardrobe_items event weather user_preferences
        count choices).length ≤ count
    ∧ (generate_recommendations wardrobe_items event weather user_preferences
        count choices).Sorted (fun a b => b.confidence ≤ a.confidence) := by
  constructor
  · simp only [generate_recommendations]
    exact List.length_take_le count _
  · simp only [generate_recommendations]
    have hs := List.sorted_mergeSort recLe_trans recLe_total
      ((List.range (count * 3)).filterMap (fun i =>
        create_outfit_combination wardrobe_items event weather user_preferences (choices i)))
    have hs2 : List.Pairwise (fun a b : OutfitRecommendation => b.confidence ≤ a.confidence)
        (((List.range (count * 3)).filterMap (fun i =>
          create_outfit_combination wardrobe_items event weather user_preferences
            (choices i))).mergeSort recLe) :=
      hs.imp (fun hab => by simpa [recLe] using hab)
    exact List.Pairwise.sublist (List.take_sublist _ _) hs2

/-- Witness for C1 at a concrete wardrobe and count. -/
theorem generate_length_sorted_witness :
    (generate_recommendations [] none none none 1 (fun _ => default)).length ≤ 1
    ∧ (generate_recommendations [] none none none 1 (fun _ => default)).Sorted
        (fun a b => b.confidence ≤ a.confidence) :=
  generate_length_sorted [] none none none 1 (fun _ => default) (by decide)

/-- C3: a wardrobe without dresses that also misses tops or bottoms
yields no recommendation at all (and no error). -/
theorem generate_empty_without_buckets (items : List ClothingItem)
    (event : Option String) (weather : Option Weather)
    (preferences : Option Preferences) (count : Nat) (choices : Nat → Choice)
    (hd : dressesOf items = []) (htb : topsOf items = [] ∨ bottomsOf items = [])
    (_hcount : 1 ≤ count) :
    generate_recommendations items event weather preferences count choices = [] := by
  have hnone : ∀ c, create_outfit_combination items event weather preferences c = none := by
    intro c
    unfold create_outfit_combination
    dsimp only
    simp only [hd]
    rcases htb with h | h <;> simp [h]
  simp only [generate_recommendations]
  rw [List.filterMap_eq_nil_iff.mpr (fun i _ => hnone (choices i)), List.mergeSort_nil,
    List.take_nil]

/-- Witness for C3 at a shoes-only wardrobe. -/
theorem generate_empty_without_buckets_witness :
    generate_recommendations shoesOnlyItems none none none 1 (fun _ => default) = [] :=
  generate_empty_without_buckets shoesOnlyItems none none none 1 (fun _ => default)
    (by decide) (by decide) (by decide)

/-- C5: every recommendation returned by `generate_recommendations` has
confidence and style score inside the closed interval from 0 to 1. -/
theorem recommendation_scores_bounded (wardrobe_items : List ClothingItem)
    (event : Option String) (weather : Option Weather)
    (user_preferences : Option Preferences) (count : Nat) (choices : Nat → Choice)
    (r : OutfitRecommendation)
    (h : r ∈ generate_recommendations wardrobe_items event weather user_preferences
      count choices) :
    0 ≤ r.confidence ∧ r.confidence ≤ 1 ∧ 0 ≤ r.style_score ∧ r.style_score ≤ 1 := by
  simp only [generate_recommendations] at h
  have h2 := List.take_subset _ _ h
  have h3 := (List.mergeSort_perm _ recLe).mem_iff.mp h2
  obtain ⟨i, hi, hc⟩ := List.mem_filterMap.mp h3
  exact create_some_bounds _ _ _ _ _ _ hc

/-- Witness for C5: a dress-only wardrobe really returns a
recommendation, and its scores are bounded. -/
theorem recommendation_scores_bounded_witness :
    0 ≤ demoRec.confidence ∧ demoRec.confidence ≤ 1
    ∧ 0 ≤ demoRec.style_score ∧ demoRec.style_score ≤ 1 :=
  recommendation_scores_bounded dressOnlyItems none none none 1 demoChoices demoRec (by
    have hrecs : (List.range (1 * 3)).filterMap
        (fun i => create_outfit_combination dressOnlyItems none none none (demoChoices i))
        = [demoRec] := rfl
    simp only [generate_recommendations, hrecs,
      mergeSort_eq_insertionSortBy recLe recLe_trans recLe_total]
    simp [insertionSortBy, insertSorted])

/-- C2 (counterexample): on three items with usage counts 1, 0, 0 the
reported average usage is the rounded 0.3, not the exact sum/count 1/3. -/
theorem average_usage_claim_false :
    (analyze_wardrobe_usage usageDemoItems).average_usage
      ≠ (sumUsage usageDemoItems : ℚ) / (usageDemoItems.length : ℚ) := by
  have hfloor : ⌊(1 / 3 * 10 : ℚ)⌋ = 3 := by
    rw [Int.floor_eq_iff]
    norm_num
  have h : (analyze_wardrobe_usage usageDemoItems).average_usage = 3 / 10 := by
    simp only [analyze_wardrobe_usage, usageDemoItems, mkItem]
    norm_num [pythonRound1, hfloor]
  rw [h]
  simp only [sumUsage, usageDemoItems, mkItem]
  norm_num

/-- C2 (amended): the reported average usage is the exact average rounded
half-to-even at one decimal, and coincides with the exact average exactly
when ten times the usage sum is divisible by the item count. -/
theorem average_usage_field (items : List ClothingItem) (h : items ≠ []) :
    (analyze_wardrobe_usage items).average_usage
      = pythonRound1 ((sumUsage items : ℚ) / (items.length : ℚ))
    ∧ ((items.length : ℤ) ∣ 10 * (sumUsage items : ℤ) →
        (analyze_wardrobe_usage items).average_usage
          = (sumUsage items : ℚ) / (items.length : ℚ)) := by
  have hne : items.isEmpty = false := List.isEmpty_eq_false.mpr h
  have hlen : 0 < items.length := List.length_pos.mpr h
  have h1 : (analyze_wardrobe_usage items).average_usage
      = pythonRound1 ((sumUsage items : ℚ) / (items.length : ℚ)) := by
    simp [analyze_wardrobe_usage, sumUsage, hne, hlen, Function.comp_def]
  refine ⟨h1, fun hdvd => ?_⟩
  obtain ⟨c, hc⟩ := hdvd
  rw [h1]
  apply pythonRound1_of_mul_ten_int _ c
  have hl0 : (items.length : ℚ) ≠ 0 := by
    exact_mod_cast Nat.pos_iff_ne_zero.mp hlen
  have hcQ : (10 : ℚ) * (sumUsage items : ℚ)
      = (items.length : ℚ) * (c : ℚ) := by exact_mod_cast hc
  field_simp
  linarith [hcQ]

/-- Witness for C2 (amended) at a one-item wardrobe with usage 2. -/
theorem average_usage_field_witness :
    (analyze_wardrobe_usage exactDemoItems).average_usage
      = pythonRound1 ((sumUsage exactDemoItems : ℚ) / (exactDemoItems.length : ℚ))
    ∧ ((exactDemoItems.length : ℤ) ∣ 10 * (sumUsage exactDemoItems : ℤ) →
        (analyze_wardrobe_usage exactDemoItems).average_usage
          = (sumUsage exactDemoItems : ℚ) / (exactDemoItems.length : ℚ)) :=
  average_usage_field exactDemoItems (by decide)

/-- C4: the color-harmony function returns 0.9 on a case-insensitive
match, 0.8 when both colors share a harmony group, 0.7 when either color
is neutral, 0.5 otherwise; with the three documented values. -/
theorem color_harmony_spec :
    (∀ color1 color2 : String,
      (strLower color1 = strLower color2 →
        calculate_color_harmony color1 color2 = 0.9)
      ∧ (strLower color1 ≠ strLower color2 →
          (∃ g ∈ color_harmony, strLower color1 ∈ g.2 ∧ strLower color2 ∈ g.2) →
          calculate_color_harmony color1 color2 = 0.8)
      ∧ (strLower color1 ≠ strLower color2 →
          ¬ (∃ g ∈ color_harmony, strLower color1 ∈ g.2 ∧ strLower color2 ∈ g.2) →
          (strLower color1 ∈ neutral_colors ∨ strLower color2 ∈ neutral_colors) →
          calculate_color_harmony color1 color2 = 0.7)
      ∧ (strLower color1 ≠ strLower color2 →
          ¬ (∃ g ∈ color_harmony, strLower color1 ∈ g.2 ∧ strLower color2 ∈ g.2) →
          ¬ (strLower color1 ∈ neutral_colors ∨ strLower color2 ∈ neutral_colors) →
          calculate_color_harmony color1 color2 = 0.5))
    ∧ calculate_color_harmony "black" "black" = 0.9
    ∧ calculate_color_harmony "red" "blue" = 0.5
    ∧ calculate_color_harmony "black" "red" = 0.7 := by
  have hmain : ∀ color1 color2 : String,
      (strLower color1 = strLower color2 →
        calculate_color_harmony color1 color2 = 0.9)
      ∧ (strLower color1 ≠ strLower color2 →
          (∃ g ∈ color_harmony, strLower color1 ∈ g.2 ∧ strLower color2 ∈ g.2) →
          calculate_color_harmony color1 color2 = 0.8)
      ∧ (strLower color1 ≠ strLower color2 →
          ¬ (∃ g ∈ color_harmony, strLower color1 ∈ g.2 ∧ strLower color2 ∈ g.2) →
          (strLower color1 ∈ neutral_colors ∨ strLower color2 ∈ neutral_colors) →
          calculate_color_harmony color1 color2 = 0.7)
      ∧ (strLower color1 ≠ strLower color2 →
          ¬ (∃ g ∈ color_harmony, strLower color1 ∈ g.2 ∧ strLower color2 ∈ g.2) →
          ¬ (strLower color1 ∈ neutral_colors ∨ strLower color2 ∈ neutral_colors) →
          calculate_color_harmony color1 color2 = 0.5) := by
    intro color1 color2
    refine ⟨fun heq => ?_, fun hne hg => ?_, fun hne hng hn => ?_,
      fun hne hng hnn => ?_⟩
    · simp [calculate_color_harmony, heq]
    · have hb : (color_harmony.any (fun g =>
          g.2.contains (strLower color1) && g.2.contains (strLower color2))) = true := by
        simp only [List.any_eq_true, Bool.and_eq_true]
        obtain ⟨g, hgm, h1, h2⟩ := hg
        exact ⟨g, hgm, by simpa using h1, by simpa using h2⟩
      simp only [calculate_color_harmony]
      rw [if_neg hne, if_pos hb]
    · have hany : ¬ ((color_harmony.any (fun g =>
          g.2.contains (strLower color1) && g.2.contains (strLower color2))) = true) := by
        simp only [List.any_eq_true, Bool.and_eq_true]
        rintro ⟨g, hgm, h1, h2⟩
        exact hng ⟨g, hgm, by simpa using h1, by simpa using h2⟩
      have hcond : (neutral_colors.contains (strLower color1)
          || neutral_colors.contains (strLower color2)) = true := by
        simp only [Bool.or_eq_true]
        rcases hn with h | h
        · exact Or.inl (by simpa using h)
        · exact Or.inr (by simpa using h)
      simp only [calculate_color_harmony]
      rw [if_neg hne, if_neg hany, if_pos hcond]
    · have hany : ¬ ((color_harmony.any (fun g =>
          g.2.contains (strLower color1) && g.2.contains (strLower color2))) = true) := by
        simp only [List.any_eq_true, Bool.and_eq_true]
        rintro ⟨g, hgm, h1, h2⟩
        exact hng ⟨g, hgm, by simpa using h1, by simpa using h2⟩
      have hcond : ¬ ((neutral_colors.contains (strLower color1)
          || neutral_colors.contains (strLower color2)) = true) := by
        simp only [Bool.or_eq_true]
        rintro (h | h)
        · exact hnn (Or.inl (by simpa using h))
        · exact hnn (Or.inr (by simpa using h))
      simp only [calculate_color_harmony]
      rw [if_neg hne, if_neg hany, if_neg hcond]
  refine ⟨hmain, ?_, ?_, ?_⟩
  · exact (hmain "black" "black").1 (by decide)
  · exact (hmain "red" "blue").2.2.2 (by decide) (by decide) (by decide)
  · exact (hmain "black" "red").2.2.1 (by decide) (by decide) (by decide)

/-- Witness for C4 at concrete mixed-case colors. -/
theorem color_harmony_spec_witness :
    calculate_color_harmony "Black" "BLACK" = 0.9
    ∧ calculate_color_harmony "brown" "beige" = 0.8 :=
  ⟨(color_harmony_spec.1 "Black" "BLACK").1 (by decide),
   (color_harmony_spec.1 "brown" "beige").2.1 (by decide)
     ⟨("earth", earth_colors), by decide, by decide, by decide⟩⟩

/-- C6: weather-appropriateness equals the banded-temperature
intersection test, is vacuously true without weather, and the boundary
temperatures 25, 15, 5 fall into the warm, cool and cold bands. -/
theorem weather_appropriate_spec_eq :
    (∀ (outfit_items : List String) (all_items : List ClothingItem)
        (weather : Option Weather),
      is_weather_appropriate outfit_items all_items weather
        = specWeatherAppropriate outfit_items all_items weather)
    ∧ (∀ (outfit_items : List String) (all_items : List ClothingItem),
      is_weather_appropriate outfit_items all_items none = true)
    ∧ weatherBand 25 = "warm" ∧ weatherBand 15 = "cool" ∧ weatherBand 5 = "cold" := by
  refine ⟨fun o a w => ?_, fun o a => rfl, ?_, ?_, ?_⟩
  · cases w with
    | none => rfl
    | some wx => rfl
  · norm_num [weatherBand]
  · norm_num [weatherBand]
  · norm_num [weatherBand]

/-- C7: event-match equals the spec's description — vacuously true for an
absent or unknown event, otherwise a formal item on a work/formal event
or a style-tag hit. -/
theorem matches_event_spec_eq (outfit_items : List String)
    (all_items : List ClothingItem) (event : Option String) :
    matches_event outfit_items all_items event
      = specMatchesEvent outfit_items all_items event := by
  cases event with
  | none => rfl
  | some e =>
    by_cases he : e = ""
    · simp [matches_event, specMatchesEvent, he]
    · by_cases hst : (lookupTable event_styles (strLower e)).isEmpty
      · simp [matches_event, specMatchesEvent, he, hst]
      · simp only [matches_event, specMatchesEvent, he, hst, Bool.false_eq_true,
          if_false, ite_false]
        rw [matches_event_go_eq]
        simp only [List.nil_append]
        rw [any_contains_flatMap]

/-- C8: the analyzer maps the empty wardrobe to the all-empty report and
raises no error. -/
theorem analyze_empty_report :
    analyze_wardrobe_usage [] =
      { total_items := 0, average_usage := 0, rarely_worn := [], most_worn := [],
        color_distribution := [], type_distribution := [], suggestions := [] } := rfl

/-- C9: on a non-empty wardrobe, `rarely_worn` is the input-ordered
filter of the items strictly below half the average usage, truncated to
ten; `most_worn` is the first five of the stable descending usage sort. -/
theorem usage_report_lists (items : List ClothingItem) (h : items ≠ []) :
    (analyze_wardrobe_usage items).rarely_worn
      = ((items.filter (fun it => (it.usage_count : ℚ)
          < 0.5 * ((sumUsage items : ℚ) / (items.length : ℚ)))).take 10).map summarize
    ∧ (analyze_wardrobe_usage items).most_worn
      = ((insertionSortBy usageLe items).take 5).map summarize := by
  have hne : items.isEmpty = false := List.isEmpty_eq_false.mpr h
  have hlen : 0 < items.length := List.length_pos.mpr h
  constructor
  · simp only [analyze_wardrobe_usage, hne, Bool.false_eq_true, if_false]
    have hfilter : items.filter (fun it => decide ((it.usage_count : ℚ)
          < (if items.length > 0 then
              (((items.map (fun it => it.usage_count)).sum : ℕ) : ℚ) / (items.length : ℚ)
            else 0) * 0.5))
        = items.filter (fun it => decide ((it.usage_count : ℚ)
          < 0.5 * ((sumUsage items : ℚ) / (items.length : ℚ)))) := by
      apply List.filter_congr
      intro it _
      rw [decide_eq_decide]
      rw [if_pos hlen, mul_comm]
      rfl
    rw [hfilter]
  · simp only [analyze_wardrobe_usage, hne, Bool.false_eq_true, if_false]
    rw [mergeSort_eq_insertionSortBy usageLe usageLe_trans usageLe_total]

/-- Witness for C9 at a concrete two-item wardrobe. -/
theorem usage_report_lists_witness :
    (analyze_wardrobe_usage usageDemoItems).rarely_worn
      = ((usageDemoItems.filter (fun it => (it.usage_count : ℚ)
          < 0.5 * ((sumUsage usageDemoItems : ℚ)
              / (usageDemoItems.length : ℚ)))).take 10).map summarize
    ∧ (analyze_wardrobe_usage usageDemoItems).most_worn
      = ((insertionSortBy usageLe usageDemoItems).take 5).map summarize :=
  usage_report_lists usageDemoItems (by decide)

/-- C10: in both report distributions the counts sum to the number of
items, each item being counted once under its lower-cased color and once
under its type as given. -/
theorem distribution_sums (items : List ClothingItem) :
    (((analyze_wardrobe_usage items).color_distribution.map (fun p => p.2)).sum
        = (analyze_wardrobe_usage items).total_items)
    ∧ (((analyze_wardrobe_usage items).type_distribution.map (fun p => p.2)).sum
        = (analyze_wardrobe_usage items).total_items)
    ∧ (∀ k, dictGet (analyze_wardrobe_usage items).color_distribution k
        = (items.filter (fun it => strLower it.color == k)).length)
    ∧ (∀ k, dictGet (analyze_wardrobe_usage items).type_distribution k
        = (items.filter (fun it => it.type == k)).length) := by
  by_cases h : items = []
  · subst h
    exact ⟨rfl, rfl, fun k => rfl, fun k => rfl⟩
  · have hne : items.isEmpty = false := List.isEmpty_eq_false.mpr h
    simp only [analyze_wardrobe_usage, hne, Bool.false_eq_true, if_false]
    refine ⟨?_, ?_, fun k => ?_, fun k => ?_⟩
    · have := foldl_dictIncr_sum (fun it => strLower it.color) items []
      simpa using this
    · have := foldl_dictIncr_sum (fun it => it.type) items []
      simpa using this
    · have := foldl_dictIncr_get (fun it => strLower it.color) items [] k
      simpa [dictGet] using this
    · have := foldl_dictIncr_get (fun it => it.type) items [] k
      simpa [dictGet] using this
